import Mathlib

/-!
Verification of the real-time audio-to-viseme classifier of the
RPM-agora-agent repository (src/hooks/useLipSync.jsx together with the
lip-sync part of src/components/Avatar.jsx), as a shallow embedding.

An audio frame is the byte-magnitude spectrum (the dataArray of one
analysis tick), modelled as a list of naturals; all real arithmetic of the
source is modelled exactly over the rationals. The value drawn by
Math.random() on a tick is passed in explicitly as a rational parameter.
-/

namespace LipSync

/-- The Oculus viseme blend-shape names produced by the classifier
(viseme_sil, viseme_PP, ..., written without the common prefix). -/
inductive Viseme where
  | sil | PP | FF | TH | DD | kk | CH | SS | aa | E | I | O | U
  deriving DecidableEq, Repr

/-- The volume computed by useLipSync.analyzeAudio: the arithmetic mean of
all magnitude bins (the reduce over dataArray divided by its length),
divided by 255. -/
def volumeOf (frame : List ℕ) : ℚ :=
  ((frame.sum : ℚ) / (frame.length : ℚ)) / 255

/-- dataArray.slice(a, b).reduce((s, v) => s + v, 0) divided by (b - a):
the mean magnitude over the bin index range from a inclusive to b
exclusive, as used for the formant bands f1, f2, f3, f4 and highF. -/
def sliceAvg (frame : List ℕ) (a b : ℕ) : ℚ :=
  (((frame.drop a).take (b - a)).sum : ℚ) / ((b - a : ℕ) : ℚ)

/-- The eight-band energy partition computed for visualization: bandSize =
floor(length / 8), each band the slice average divided by 255. -/
def bandsOf (frame : List ℕ) : List ℚ :=
  let bandSize := frame.length / 8
  (List.range 8).map (fun i => sliceAvg frame (i * bandSize) (i * bandSize + bandSize) / 255)

/-- The spectral centroid of useLipSync.analyzeAudio: frequency-weighted
mean magnitude, 0 when the total magnitude is 0. -/
def centroidOf (sampleRate : ℚ) (frame : List ℕ) : ℚ :=
  let weightedSum :=
    (frame.enum.map (fun p => (p.1 : ℚ) * (sampleRate / 2) / (frame.length : ℚ) * (p.2 : ℚ))).sum
  let total := ((frame.sum : ℕ) : ℚ)
  if total > 0 then weightedSum / total else 0

/-- The FeatureSet exposed by the hook: { volume, centroid, bands }. -/
structure Features where
  volume : ℚ
  centroid : ℚ
  bands : List ℚ
  deriving DecidableEq, Repr

/-- The features computed on one tick of useLipSync.analyzeAudio. -/
def analyzeFeatures (sampleRate : ℚ) (frame : List ℕ) : Features :=
  { volume := volumeOf frame
    centroid := centroidOf sampleRate frame
    bands := bandsOf frame }

/-- The viseme decision tree of useLipSync.analyzeAudio. The thresholds are
the exact decimal constants of the source (0.02 = 1/50, 0.25 = 1/4,
0.2 = 1/5, 0.15 = 3/20, 0.35 = 7/20); rand is the Math.random() draw of
the tick, compared against 0.5. -/
def analyzeViseme (frame : List ℕ) (rand : ℚ) : Viseme :=
  let volume := volumeOf frame
  if volume > 1/50 then
    let f1 := sliceAvg frame 0 8
    let f2 := sliceAvg frame 8 20
    let f3 := sliceAvg frame 20 40
    let f4 := sliceAvg frame 40 70
    let highF := sliceAvg frame 70 110
    let totalEnergy := f1 + f2 + f3 + f4 + highF
    if totalEnergy > 10 then
      let nf1 := f1 / totalEnergy
      let nf2 := f2 / totalEnergy
      let nf3 := f3 / totalEnergy
      let nhighF := highF / totalEnergy
      if nf1 > 1/4 ∧ nf2 < 1/5 then Viseme.aa
      else if nf2 > 1/4 ∧ nhighF > 1/5 then Viseme.I
      else if nf1 > 1/5 ∧ nf2 > 1/5 then Viseme.E
      else if nf1 < 3/20 ∧ nf2 < 1/5 ∧ nhighF > 1/4 then Viseme.U
      else if nf1 < 1/5 ∧ nf2 > 1/5 ∧ nf3 > 1/5 then Viseme.O
      else if nhighF > 7/20 then (if rand > 1/2 then Viseme.SS else Viseme.CH)
      else if nhighF > 1/4 then (if rand > 1/2 then Viseme.FF else Viseme.TH)
      else if nf1 < 3/20 ∧ nf2 < 1/5 ∧ nhighF < 1/5 then Viseme.PP
      else if nf2 < 1/5 ∧ nf3 > 1/5 then Viseme.kk
      else Viseme.DD
    else Viseme.sil
  else Viseme.sil

/-- The outputs exposed each tick: the current viseme and features. -/
structure Outputs where
  viseme : Viseme
  features : Features
  deriving DecidableEq

/-- One run of the analyzeAudio callback body, given that the analyser and
context refs are set. The input is the outcome of reading and analyzing
the frequency data: an error value models a thrown exception, which the
catch block swallows so the outputs keep their previous values. The Bool
of the result records that requestAnimationFrame was called (it sits after
the try/catch, so it runs on every path). -/
def analysisTick (sampleRate : ℚ) (prev : Outputs) (input : Except Unit (List ℕ × ℚ)) :
    Outputs × Bool :=
  match input with
  | Except.error _ => (prev, true)
  | Except.ok (frame, rand) =>
      ({ viseme := analyzeViseme frame rand
         features := analyzeFeatures sampleRate frame }, true)

/-- The React state of useLipSync visible to consumers, plus whether an
animation-frame callback is currently scheduled (animationFrameRef). -/
structure HookState where
  viseme : Viseme
  features : Features
  isConnected : Bool
  animationFrame : Bool
  deriving DecidableEq

/-- The features value useState is initialised with and that
disconnectAudio resets to: { volume: 0, centroid: 0, bands: [] }. -/
def initialFeatures : Features :=
  { volume := 0, centroid := 0, bands := [] }

/-- The initial hook state: useState("viseme_PP"), zero features, not
connected, no scheduled callback. -/
def initialHookState : HookState :=
  { viseme := Viseme.PP
    features := initialFeatures
    isConnected := false
    animationFrame := false }

/-- disconnectAudio: cancels the scheduled callback, clears the connected
flag, and resets viseme to "viseme_PP" and the features to zero. The audio
context is deliberately kept, which this state does not track. -/
def disconnectAudio (_s : HookState) : HookState :=
  { viseme := Viseme.PP
    features := initialFeatures
    isConnected := false
    animationFrame := false }

/-- One scheduler step of the analysis loop: the analyzeAudio callback
only runs when a callback is scheduled (animationFrameRef is set);
otherwise nothing executes and the state is unchanged. -/
def loopStep (sampleRate : ℚ) (s : HookState) (input : Except Unit (List ℕ × ℚ)) :
    HookState :=
  if s.animationFrame then
    let r := analysisTick sampleRate { viseme := s.viseme, features := s.features } input
    { s with viseme := r.1.viseme, features := r.1.features, animationFrame := r.2 }
  else s

/-- An audio element, with the _audioSourceConnected expando flag the
source sets on it to guard against re-attachment. -/
structure AudioElem where
  id : ℕ
  sourceConnected : Bool
  deriving DecidableEq, Repr

/-- The WebAudio graph state owned by connectAudio and disconnectAudio:
whether audioContextRef is set, whether the context is suspended, how many
analyser nodes and media-element sources have been created, which element
id is wired into the graph, whether the analysis loop is running, and the
exposed isConnected flag. -/
structure AdapterState where
  hasContext : Bool
  suspended : Bool
  analyserCount : ℕ
  sourcesCreated : ℕ
  attached : Option ℕ
  running : Bool
  isConnected : Bool
  deriving DecidableEq, Repr

/-- connectAudio(audioElement): on the first call (no audio context yet)
it creates the context and one analyser node, wires the element in unless
its _audioSourceConnected flag is already set, marks connected, and starts
the loop. On any later call it only resumes a suspended context, marks
connected, and restarts the loop if needed; the element argument is left
untouched. -/
def connectAudio (s : AdapterState) (e : AudioElem) : AdapterState × AudioElem :=
  if s.hasContext = false then
    let s1 := { s with hasContext := true, analyserCount := s.analyserCount + 1 }
    if e.sourceConnected = false then
      ({ s1 with
          sourcesCreated := s1.sourcesCreated + 1
          attached := some e.id
          isConnected := true
          running := true },
        { e with sourceConnected := true })
    else
      ({ s1 with isConnected := true, running := true }, e)
  else
    let s1 := if s.suspended = true then { s with suspended := false } else s
    ({ s1 with isConnected := true, running := true }, e)

/-- The intensity gain constant of Avatar.useFrame (4.0 in the source,
raised from 2.5 per the comment there). -/
def gain : ℚ := 4

/-- The result of one lip-sync pass of Avatar.useFrame: the updated
lastViseme and visemeTransition refs and the intensity applied to the
active viseme morph target on this tick (0 when the branch that applies a
viseme is not taken). -/
structure FrameResult where
  lastViseme : Option Viseme
  progress : ℚ
  intensity : ℚ
  deriving DecidableEq, Repr

/-- The lip-sync part of Avatar.useFrame: when an active viseme exists and
the audio level is above 0.01, a label change resets the transition to 0,
the transition then advances by deltaTime * 20 clamped at 1, and the
applied intensity is min(level * gain, 1) * transition. -/
def useFrameLipSync (lastViseme : Option Viseme) (progress : ℚ)
    (activeViseme : Option Viseme) (activeAudioLevel deltaTime : ℚ) : FrameResult :=
  match activeViseme with
  | some v =>
      if activeAudioLevel > 1/100 then
        let p0 := if lastViseme = some v then progress else 0
        let p1 := min (p0 + deltaTime * 20) 1
        { lastViseme := some v
          progress := p1
          intensity := min (activeAudioLevel * gain) 1 * p1 }
      else
        { lastViseme := lastViseme, progress := progress, intensity := 0 }
  | none => { lastViseme := lastViseme, progress := progress, intensity := 0 }

/-- Iterated Avatar.useFrame ticks with a constant active viseme, audio
level and frame time, starting just after a label change reset the
transition to 0. -/
def runTicks (v : Viseme) (level deltaTime : ℚ) : ℕ → Option Viseme × ℚ
  | 0 => (some v, 0)
  | n + 1 =>
      let s := runTicks v level deltaTime n
      let r := useFrameLipSync s.1 s.2 (some v) level deltaTime
      (r.lastViseme, r.progress)

/-- The frame of the §8 scenario: bins 70 to 109 equal to 220, every other
bin 0 (128 bins in total, matching fftSize 256). -/
def frame220 : List ℕ :=
  List.replicate 70 0 ++ List.replicate 40 220 ++ List.replicate 18 0

/-- A frame whose high band dominates but whose first formant band keeps
the normalized f1 fraction at 5/27, between 0.15 and 0.25, so the random
sibilant rule is reached: bins 0 to 7 equal 50, bins 70 to 109 equal 220,
every other bin 0. -/
def frameAmbig : List ℕ :=
  List.replicate 8 50 ++ List.replicate 62 0 ++ List.replicate 40 220 ++ List.replicate 18 0

/-- A uniformly quiet frame: every bin 4, so the volume 4/255 lies between
the renderer gate 0.01 and the classifier silence threshold 0.02. -/
def frame4 : List ℕ := List.replicate 128 4

/-- The slice average of a constant frame is that constant. -/
lemma sliceAvg_replicate (M a b n : ℕ) (hb : b ≤ n) (hab : a < b) :
    sliceAvg (List.replicate n M) a b = M := by
  have h1 : min (b - a) (n - a) = b - a := by omega
  have h2 : ((b - a : ℕ) : ℚ) ≠ 0 := by
    exact_mod_cast Nat.pos_iff_ne_zero.mp (by omega)
  simp only [sliceAvg, List.drop_replicate, List.take_replicate, h1, List.sum_replicate,
    smul_eq_mul, Nat.cast_mul]
  rw [mul_comm, mul_div_assoc, div_self h2, mul_one]

/-- The volume of a constant frame of M-valued bins is M / 255. -/
lemma volumeOf_replicate (M n : ℕ) (hn : n ≠ 0) : volumeOf (List.replicate n M) = (M : ℚ) / 255 := by
  have h2 : ((n : ℕ) : ℚ) ≠ 0 := by exact_mod_cast hn
  simp only [volumeOf, List.sum_replicate, List.length_replicate, smul_eq_mul, Nat.cast_mul]
  rw [mul_comm, mul_div_assoc, div_self h2, mul_one]

lemma frame220_volume : volumeOf frame220 = 55/204 := by
  simp only [volumeOf, frame220, List.sum_append, List.sum_replicate, List.length_append,
    List.length_replicate, smul_eq_mul]
  norm_num

lemma frame220_f1 : sliceAvg frame220 0 8 = 0 := by
  simp [sliceAvg, frame220, List.take_append_eq_append_take, List.drop_append_eq_append_drop,
    List.take_replicate, List.drop_replicate, List.sum_replicate]

lemma frame220_f2 : sliceAvg frame220 8 20 = 0 := by
  simp [sliceAvg, frame220, List.take_append_eq_append_take, List.drop_append_eq_append_drop,
    List.take_replicate, List.drop_replicate, List.sum_replicate]

lemma frame220_f3 : sliceAvg frame220 20 40 = 0 := by
  simp [sliceAvg, frame220, List.take_append_eq_append_take, List.drop_append_eq_append_drop,
    List.take_replicate, List.drop_replicate, List.sum_replicate]

lemma frame220_f4 : sliceAvg frame220 40 70 = 0 := by
  simp [sliceAvg, frame220, List.take_append_eq_append_take, List.drop_append_eq_append_drop,
    List.take_replicate, List.drop_replicate, List.sum_replicate]

lemma frame220_high : sliceAvg frame220 70 110 = 220 := by
  simp only [sliceAvg, frame220, List.take_append_eq_append_take, List.drop_append_eq_append_drop,
    List.take_replicate, List.drop_replicate, List.length_replicate, List.length_append,
    List.sum_append, List.sum_replicate, smul_eq_mul]
  norm_num

lemma frameAmbig_volume : volumeOf frameAmbig = 115/408 := by
  simp only [volumeOf, frameAmbig, List.sum_append, List.sum_replicate, List.length_append,
    List.length_replicate, smul_eq_mul]
  norm_num

lemma frameAmbig_f1 : sliceAvg frameAmbig 0 8 = 50 := by
  simp only [sliceAvg, frameAmbig, List.take_append_eq_append_take,
    List.drop_append_eq_append_drop, List.take_replicate, List.drop_replicate,
    List.length_replicate, List.length_append, List.sum_append, List.sum_replicate, smul_eq_mul]
  norm_num

lemma frameAmbig_f2 : sliceAvg frameAmbig 8 20 = 0 := by
  simp [sliceAvg, frameAmbig, List.take_append_eq_append_take, List.drop_append_eq_append_drop,
    List.take_replicate, List.drop_replicate, List.sum_replicate]

lemma frameAmbig_f3 : sliceAvg frameAmbig 20 40 = 0 := by
  simp [sliceAvg, frameAmbig, List.take_append_eq_append_take, List.drop_append_eq_append_drop,
    List.take_replicate, List.drop_replicate, List.sum_replicate]

lemma frameAmbig_f4 : sliceAvg frameAmbig 40 70 = 0 := by
  simp [sliceAvg, frameAmbig, List.take_append_eq_append_take, List.drop_append_eq_append_drop,
    List.take_replicate, List.drop_replicate, List.sum_replicate]

lemma frameAmbig_high : sliceAvg frameAmbig 70 110 = 220 := by
  simp only [sliceAvg, frameAmbig, List.take_append_eq_append_take,
    List.drop_append_eq_append_drop, List.take_replicate, List.drop_replicate,
    List.length_replicate, List.length_append, List.sum_append, List.sum_replicate, smul_eq_mul]
  norm_num

lemma frame4_volume : volumeOf frame4 = 4/255 :=
  volumeOf_replicate 4 128 (by norm_num)

/-- On the scenario frame with only the high band lit, the close-back
vowel rule fires before the sibilant rule, for every random draw. -/
lemma analyzeViseme_frame220 (r : ℚ) : analyzeViseme frame220 r = Viseme.U := by
  simp only [analyzeViseme, frame220_volume, frame220_f1, frame220_f2, frame220_f3,
    frame220_f4, frame220_high]
  norm_num

/-- When the audio level is above the 0.01 gate and a viseme is active,
the useFrame lip-sync pass reduces to its then-branch. -/
lemma useFrameLipSync_pos (lastV : Option Viseme) (p : ℚ) (v : Viseme) (level dt : ℚ)
    (hc : 1/100 < level) :
    useFrameLipSync lastV p (some v) level dt =
      { lastViseme := some v
        progress := min ((if lastV = some v then p else 0) + dt * 20) 1
        intensity :=
          min (level * gain) 1 * min ((if lastV = some v then p else 0) + dt * 20) 1 } := by
  simp only [useFrameLipSync]
  rw [if_pos hc]

/-- While the active viseme stays the same and the level is above the
gate, the lastViseme ref stays equal to it across iterated ticks. -/
lemma runTicks_lastViseme (v : Viseme) (level dt : ℚ) (hl : 1/100 < level) :
    ∀ n, (runTicks v level dt n).1 = some v := by
  intro n
  induction n with
  | zero => rfl
  | succ k ih =>
      simp only [runTicks]
      rw [ih, useFrameLipSync_pos _ _ _ _ _ hl]

/-- One iterated tick advances the transition by deltaTime * 20, clamped
at 1. -/
lemma runTicks_progress_succ (v : Viseme) (level dt : ℚ) (hl : 1/100 < level) (n : ℕ) :
    (runTicks v level dt (n+1)).2 = min ((runTicks v level dt n).2 + dt * 20) 1 := by
  simp only [runTicks]
  rw [runTicks_lastViseme v level dt hl n, useFrameLipSync_pos _ _ _ _ _ hl]
  simp

/-- The transition progress stays inside [0, 1] across iterated ticks. -/
lemma runTicks_progress_bounds (v : Viseme) (level dt : ℚ) (hl : 1/100 < level) (hd : 0 ≤ dt) :
    ∀ n, 0 ≤ (runTicks v level dt n).2 ∧ (runTicks v level dt n).2 ≤ 1 := by
  intro n
  induction n with
  | zero =>
      refine ⟨le_refl _, ?_⟩
      show (0:ℚ) ≤ 1
      norm_num
  | succ k ih =>
      rw [runTicks_progress_succ v level dt hl k]
      refine ⟨le_min (add_nonneg ih.1 (by positivity)) (by norm_num), min_le_right _ _⟩

/-- C1: the claim pairs the silence label with zero intensity at a single
threshold between 0.01 and 0.02. At volume 4/255, above 0.01 but at most
0.02, the classifier emits the silence label while the useFrame pass still
applies a positive intensity to it, so no threshold above 0.01 validates
the claim. -/
theorem silence_threshold_cex :
    1/100 < volumeOf frame4 ∧ volumeOf frame4 ≤ 1/50 ∧
    analyzeViseme frame4 0 = Viseme.sil ∧
    0 < (useFrameLipSync (some Viseme.sil) 1 (some Viseme.sil)
          (volumeOf frame4) (1/60)).intensity := by
  refine ⟨by rw [frame4_volume]; norm_num, by rw [frame4_volume]; norm_num, ?_, ?_⟩
  · simp only [analyzeViseme, frame4_volume]
    norm_num
  · rw [frame4_volume, useFrameLipSync_pos _ _ _ _ _ (by norm_num)]
    norm_num [gain, min_def]

/-- C1 (amended): whenever the computed volume is at most 0.02 the
classifier outputs the silence label regardless of band energies, and
whenever it is additionally at most 0.01 the useFrame pass applies zero
intensity; between 0.01 and 0.02 the silence label can carry positive
intensity. -/
theorem silence_guard (frame : List ℕ) (r : ℚ) (lastV : Option Viseme) (p dt : ℚ)
    (h : volumeOf frame ≤ 1/50) :
    analyzeViseme frame r = Viseme.sil ∧
    (volumeOf frame ≤ 1/100 →
      (useFrameLipSync lastV p (some (analyzeViseme frame r))
        (volumeOf frame) dt).intensity = 0) := by
  have hsil : analyzeViseme frame r = Viseme.sil := by
    simp only [analyzeViseme]
    rw [if_neg (not_lt.mpr h)]
  refine ⟨hsil, fun h2 => ?_⟩
  rw [hsil]
  simp only [useFrameLipSync]
  rw [if_neg (not_lt.mpr h2)]

/-- C1 witness: the all-zero frame is silent and gets zero intensity. -/
theorem silence_guard_witness :
    analyzeViseme (List.replicate 128 0) 0 = Viseme.sil ∧
    (volumeOf (List.replicate 128 0) ≤ 1/100 →
      (useFrameLipSync none 0 (some (analyzeViseme (List.replicate 128 0) 0))
        (volumeOf (List.replicate 128 0)) (1/60)).intensity = 0) :=
  silence_guard (List.replicate 128 0) 0 none 0 (1/60)
    (by rw [volumeOf_replicate 0 128 (by norm_num)]; norm_num)

/-- C2: on the frame with bins 70 to 109 equal to 220 and the rest 0, the
classifier returns the close-back vowel viseme_U for either outcome of the
random draw, not a sibilant: the weak-low-strong-high rule precedes the
very-strong-high-band rule in the decision tree and already matches. -/
theorem highBand_rule_order_cex :
    analyzeViseme frame220 (3/10) = Viseme.U ∧
    analyzeViseme frame220 (7/10) = Viseme.U ∧
    Viseme.U ≠ Viseme.SS ∧ Viseme.U ≠ Viseme.CH :=
  ⟨analyzeViseme_frame220 (3/10), analyzeViseme_frame220 (7/10), by decide, by decide⟩

/-- C2 (amended): for the frame with bins 70 to 109 equal to 220 and all
other bins 0, the classifier outputs viseme_U for every random draw,
because the rule for weak low and mid bands with strong high band fires
first among the matching rules. -/
theorem highBand_frame_gives_U (r : ℚ) : analyzeViseme frame220 r = Viseme.U :=
  analyzeViseme_frame220 r

/-- C3: the exposed viseme label in the initial state and right after
disconnectAudio is the bilabial viseme_PP, not the silence label. -/
theorem initial_viseme_cex :
    initialHookState.viseme = Viseme.PP ∧
    (disconnectAudio initialHookState).viseme = Viseme.PP ∧
    Viseme.PP ≠ Viseme.sil :=
  ⟨rfl, rfl, by decide⟩

/-- C3 (amended): disconnectAudio returns the hook to its initial state,
whose label is viseme_PP (a closed mouth) rather than viseme_sil: the
connected flag is cleared, the features are zeroed so the renderer applies
zero intensity, and with the scheduled callback cancelled no further
analysis tick executes. -/
theorem disconnect_resets_state (s : HookState) (sampleRate : ℚ)
    (input : Except Unit (List ℕ × ℚ)) (lastV : Option Viseme) (p : ℚ)
    (av : Option Viseme) (dt : ℚ) :
    disconnectAudio s = initialHookState ∧
    initialHookState.viseme = Viseme.PP ∧
    (disconnectAudio s).isConnected = false ∧
    (disconnectAudio s).features = initialFeatures ∧
    loopStep sampleRate (disconnectAudio s) input = disconnectAudio s ∧
    (useFrameLipSync lastV p av ((disconnectAudio s).features.volume) dt).intensity = 0 := by
  refine ⟨rfl, rfl, rfl, rfl, by simp [loopStep, disconnectAudio], ?_⟩
  cases av with
  | none => rfl
  | some v =>
      simp only [useFrameLipSync, disconnectAudio, initialFeatures]
      rw [if_neg (by norm_num)]

/-- C4: the extracted volume is the mean of all magnitude bins divided by
255, and on a frame of 128 all-equal bins M the volume is exactly M/255
while each of the five formant band energies equals M. -/
theorem volume_mean_and_constant_frame (frame : List ℕ) (M : ℕ) :
    volumeOf frame = ((frame.sum : ℚ) / (frame.length : ℚ)) / 255 ∧
    (frame = List.replicate 128 M →
      volumeOf frame = (M : ℚ) / 255 ∧
      sliceAvg frame 0 8 = M ∧ sliceAvg frame 8 20 = M ∧ sliceAvg frame 20 40 = M ∧
      sliceAvg frame 40 70 = M ∧ sliceAvg frame 70 110 = M) := by
  refine ⟨rfl, fun h => ?_⟩
  subst h
  exact ⟨volumeOf_replicate M 128 (by norm_num),
    sliceAvg_replicate M 0 8 128 (by norm_num) (by norm_num),
    sliceAvg_replicate M 8 20 128 (by norm_num) (by norm_num),
    sliceAvg_replicate M 20 40 128 (by norm_num) (by norm_num),
    sliceAvg_replicate M 40 70 128 (by norm_num) (by norm_num),
    sliceAvg_replicate M 70 110 128 (by norm_num) (by norm_num)⟩

/-- C4 witness: the all-100 frame has volume 100/255 and every formant
band energy 100. -/
theorem volume_mean_witness :
    volumeOf (List.replicate 128 100) = ((100 : ℕ) : ℚ) / 255 ∧
    sliceAvg (List.replicate 128 100) 0 8 = (100 : ℕ) ∧
    sliceAvg (List.replicate 128 100) 8 20 = (100 : ℕ) ∧
    sliceAvg (List.replicate 128 100) 20 40 = (100 : ℕ) ∧
    sliceAvg (List.replicate 128 100) 40 70 = (100 : ℕ) ∧
    sliceAvg (List.replicate 128 100) 70 110 = (100 : ℕ) :=
  (volume_mean_and_constant_frame (List.replicate 128 100) 100).2 rfl

/-- C5: from a fresh state, two consecutive connectAudio calls on the same
element build exactly one analyser node and attach the element exactly
once; the second call changes nothing at all on a non-suspended context. -/
theorem connect_idempotent (s0 : AdapterState) (e : AudioElem)
    (hctx : s0.hasContext = false) (hsusp : s0.suspended = false)
    (hcount : s0.analyserCount = 0) (hsrc : s0.sourcesCreated = 0)
    (he : e.sourceConnected = false) :
    (connectAudio s0 e).1.analyserCount = 1 ∧
    (connectAudio s0 e).1.sourcesCreated = 1 ∧
    connectAudio (connectAudio s0 e).1 (connectAudio s0 e).2 = connectAudio s0 e := by
  simp [connectAudio, hctx, hsusp, hcount, hsrc, he]

/-- C5 witness: the idempotence at a concrete fresh state and element. -/
theorem connect_idempotent_witness :
    (connectAudio ⟨false, false, 0, 0, none, false, false⟩ ⟨1, false⟩).1.analyserCount = 1 ∧
    (connectAudio ⟨false, false, 0, 0, none, false, false⟩ ⟨1, false⟩).1.sourcesCreated = 1 ∧
    connectAudio (connectAudio ⟨false, false, 0, 0, none, false, false⟩ ⟨1, false⟩).1
        (connectAudio ⟨false, false, 0, 0, none, false, false⟩ ⟨1, false⟩).2 =
      connectAudio ⟨false, false, 0, 0, none, false, false⟩ ⟨1, false⟩ :=
  connect_idempotent ⟨false, false, 0, 0, none, false, false⟩ ⟨1, false⟩ rfl rfl rfl rfl rfl

/-- C6: on ticks where the useFrame pass applies a viseme, the applied
intensity equals min(level * gain, 1) times the transition progress, with
gain = 4 inside the 2.5 to 4.0 range; and on every tick the applied
intensity lies in [0, 1]. -/
theorem intensity_formula_and_clamp (lastV : Option Viseme) (p : ℚ)
    (activeViseme : Option Viseme) (level dt : ℚ)
    (hl : 0 ≤ level) (hp : 0 ≤ p) (hd : 0 ≤ dt) :
    (5/2 ≤ gain ∧ gain ≤ 4) ∧
    (activeViseme.isSome = true → 1/100 < level →
      (useFrameLipSync lastV p activeViseme level dt).intensity =
        min (level * gain) 1 * (useFrameLipSync lastV p activeViseme level dt).progress) ∧
    0 ≤ (useFrameLipSync lastV p activeViseme level dt).intensity ∧
    (useFrameLipSync lastV p activeViseme level dt).intensity ≤ 1 := by
  refine ⟨⟨by norm_num [gain], le_refl _⟩, ?_, ?_, ?_⟩
  · intro hsome hc
    cases activeViseme with
    | none => simp at hsome
    | some v => rw [useFrameLipSync_pos _ _ _ _ _ hc]
  · cases activeViseme with
    | none => simp [useFrameLipSync]
    | some v =>
        by_cases hc : 1/100 < level
        · rw [useFrameLipSync_pos _ _ _ _ _ hc]
          have h0 : (0:ℚ) ≤ if lastV = some v then p else 0 := by split <;> simp [hp]
          refine mul_nonneg (le_min (mul_nonneg hl (by norm_num [gain])) (by norm_num)) ?_
          exact le_min (add_nonneg h0 (by positivity)) (by norm_num)
        · simp only [useFrameLipSync]
          rw [if_neg hc]
  · cases activeViseme with
    | none => simp [useFrameLipSync]
    | some v =>
        by_cases hc : 1/100 < level
        · rw [useFrameLipSync_pos _ _ _ _ _ hc]
          have h0 : (0:ℚ) ≤ if lastV = some v then p else 0 := by split <;> simp [hp]
          have hA : min (level * gain) 1 ≤ 1 := min_le_right _ _
          have hB : min ((if lastV = some v then p else 0) + dt * 20) 1 ≤ 1 := min_le_right _ _
          have hB0 : (0:ℚ) ≤ min ((if lastV = some v then p else 0) + dt * 20) 1 :=
            le_min (add_nonneg h0 (by positivity)) (by norm_num)
          calc min (level * gain) 1 * min ((if lastV = some v then p else 0) + dt * 20) 1
              ≤ 1 * 1 := mul_le_mul hA hB hB0 (by norm_num)
            _ = 1 := by norm_num
        · simp only [useFrameLipSync]
          rw [if_neg hc]
          norm_num

/-- C6 witness: the formula and clamp at a concrete tick. -/
theorem intensity_formula_witness :
    (5/2 ≤ gain ∧ gain ≤ 4) ∧
    ((some Viseme.aa).isSome = true → 1/100 < (1/2 : ℚ) →
      (useFrameLipSync none 0 (some Viseme.aa) (1/2) (1/60)).intensity =
        min ((1/2 : ℚ) * gain) 1 * (useFrameLipSync none 0 (some Viseme.aa) (1/2) (1/60)).progress) ∧
    0 ≤ (useFrameLipSync none 0 (some Viseme.aa) (1/2) (1/60)).intensity ∧
    (useFrameLipSync none 0 (some Viseme.aa) (1/2) (1/60)).intensity ≤ 1 :=
  intensity_formula_and_clamp none 0 (some Viseme.aa) (1/2) (1/60)
    (by norm_num) (le_refl 0) (by norm_num)

/-- C7: while the label stays fixed after a change reset the transition to
0, the transition progress is non-decreasing at every further tick, and at
60 Hz with the rate constant 20 it reaches exactly 1 within 20 ticks. -/
theorem transition_monotone_and_bounded :
    (∀ (v : Viseme) (level dt : ℚ) (n : ℕ), 0 ≤ dt → 1/100 < level →
      (runTicks v level dt n).2 ≤ (runTicks v level dt (n+1)).2) ∧
    (runTicks Viseme.aa (1/2) (1/60) 20).2 = 1 := by
  constructor
  · intro v level dt n hd hl
    rw [runTicks_progress_succ v level dt hl n]
    exact le_min (le_add_of_nonneg_right (by positivity))
      ((runTicks_progress_bounds v level dt hl hd n).2)
  · have h3 : (runTicks Viseme.aa (1/2) (1/60) 3).2 = 1 := by
      rw [runTicks_progress_succ _ _ _ (by norm_num) 2,
        runTicks_progress_succ _ _ _ (by norm_num) 1,
        runTicks_progress_succ _ _ _ (by norm_num) 0]
      norm_num [runTicks, min_def]
    have stab : ∀ k, (runTicks Viseme.aa (1/2) (1/60) (3 + k)).2 = 1 := by
      intro k
      induction k with
      | zero => exact h3
      | succ j ih =>
          have hsh : 3 + (j + 1) = (3 + j) + 1 := by ring
          rw [hsh, runTicks_progress_succ _ _ _ (by norm_num) (3 + j), ih]
          norm_num [min_def]
    exact stab 17

/-- C7 witness: the first tick after a reset does not decrease the
progress. -/
theorem transition_monotone_witness :
    (runTicks Viseme.aa (1/2) (1/60) 0).2 ≤ (runTicks Viseme.aa (1/2) (1/60) 1).2 :=
  transition_monotone_and_bounded.1 Viseme.aa (1/2) (1/60) 0 (by norm_num) (by norm_num)

/-- C8: on a frame whose normalized high-band fraction 22/27 exceeds the
sibilant threshold 0.35 while the earlier vowel rules all fail, the
classifier returns viseme_SS when the random draw exceeds 0.5 and
viseme_CH otherwise: identical frames can yield different labels. -/
theorem classifier_nondeterministic :
    analyzeViseme frameAmbig (3/5) = Viseme.SS ∧
    analyzeViseme frameAmbig (2/5) = Viseme.CH ∧
    Viseme.SS ≠ Viseme.CH ∧
    7/20 < sliceAvg frameAmbig 70 110 /
      (sliceAvg frameAmbig 0 8 + sliceAvg frameAmbig 8 20 + sliceAvg frameAmbig 20 40 +
        sliceAvg frameAmbig 40 70 + sliceAvg frameAmbig 70 110) := by
  refine ⟨?_, ?_, by decide, ?_⟩
  · simp only [analyzeViseme, frameAmbig_volume, frameAmbig_f1, frameAmbig_f2, frameAmbig_f3,
      frameAmbig_f4, frameAmbig_high]
    norm_num
  · simp only [analyzeViseme, frameAmbig_volume, frameAmbig_f1, frameAmbig_f2, frameAmbig_f3,
      frameAmbig_f4, frameAmbig_high]
    norm_num
  · rw [frameAmbig_f1, frameAmbig_f2, frameAmbig_f3, frameAmbig_f4, frameAmbig_high]
    norm_num

/-- C9: a thrown tick is swallowed by the catch block, leaving the exposed
viseme and features at their previous values, and the next animation frame
is scheduled on every path since the requestAnimationFrame call sits after
the try/catch. -/
theorem tick_exception_skips_and_continues (sampleRate : ℚ) (prev : Outputs)
    (input : Except Unit (List ℕ × ℚ)) :
    analysisTick sampleRate prev (Except.error ()) = (prev, true) ∧
    (analysisTick sampleRate prev input).2 = true := by
  refine ⟨rfl, ?_⟩
  cases input with
  | error e => rfl
  | ok f =>
      obtain ⟨frame, rand⟩ := f
      rfl

/-- C10: once a context exists from a first connect, a connect with any
second element takes the resume path: it creates no source, never attaches
the new element, keeps the graph wired to the first element, and only
marks connected, unsuspends, and keeps the loop running. -/
theorem connect_ignores_new_element (s0 : AdapterState) (e1 e2 : AudioElem)
    (hctx : s0.hasContext = false) (he1 : e1.sourceConnected = false) :
    (connectAudio (connectAudio s0 e1).1 e2).1.attached = some e1.id ∧
    (connectAudio (connectAudio s0 e1).1 e2).1.sourcesCreated =
      (connectAudio s0 e1).1.sourcesCreated ∧
    (connectAudio (connectAudio s0 e1).1 e2).1.analyserCount =
      (connectAudio s0 e1).1.analyserCount ∧
    (connectAudio (connectAudio s0 e1).1 e2).2 = e2 ∧
    (connectAudio (connectAudio s0 e1).1 e2).1.isConnected = true ∧
    (connectAudio (connectAudio s0 e1).1 e2).1.running = true ∧
    (connectAudio (connectAudio s0 e1).1 e2).1.suspended = false := by
  rcases Bool.eq_false_or_eq_true s0.suspended with hs | hs <;>
    simp [connectAudio, hctx, he1, hs]

/-- C10 witness: a second connect with a different element on a suspended
context resumes it and leaves the graph on the first element. -/
theorem connect_ignores_new_element_witness :
    (connectAudio (connectAudio ⟨false, true, 0, 0, none, false, false⟩ ⟨1, false⟩).1
        ⟨2, false⟩).1.attached = some 1 ∧
    (connectAudio (connectAudio ⟨false, true, 0, 0, none, false, false⟩ ⟨1, false⟩).1
        ⟨2, false⟩).1.sourcesCreated =
      (connectAudio ⟨false, true, 0, 0, none, false, false⟩ ⟨1, false⟩).1.sourcesCreated ∧
    (connectAudio (connectAudio ⟨false, true, 0, 0, none, false, false⟩ ⟨1, false⟩).1
        ⟨2, false⟩).1.analyserCount =
      (connectAudio ⟨false, true, 0, 0, none, false, false⟩ ⟨1, false⟩).1.analyserCount ∧
    (connectAudio (connectAudio ⟨false, true, 0, 0, none, false, false⟩ ⟨1, false⟩).1
        ⟨2, false⟩).2 = (⟨2, false⟩ : AudioElem) ∧
    (connectAudio (connectAudio ⟨false, true, 0, 0, none, false, false⟩ ⟨1, false⟩).1
        ⟨2, false⟩).1.isConnected = true ∧
    (connectAudio (connectAudio ⟨false, true, 0, 0, none, false, false⟩ ⟨1, false⟩).1
        ⟨2, false⟩).1.running = true ∧
    (connectAudio (connectAudio ⟨false, true, 0, 0, none, false, false⟩ ⟨1, false⟩).1
        ⟨2, false⟩).1.suspended = false :=
  connect_ignores_new_element ⟨false, true, 0, 0, none, false, false⟩ ⟨1, false⟩ ⟨2, false⟩
    rfl rfl

end LipSync
